import Mathlib

/-!
Verification of the command-execution and record-mapping layer of the
sf-sanctuary CLI (src/utils/sf_command_executor.py, src/managers/user_manager.py,
src/models/user_model.py), as a shallow embedding in Lean 4.

The external world (the child processes spawned by `subprocess.run`) is modelled
as a function from the full shell command string to a process result; every
function of the layer is translated into a pure Lean function over that model,
with Python exceptions represented in an `Except` error monad.
-/

set_option maxRecDepth 100000

namespace SfCli

/-- JSON values as produced by Python's `json.loads` on this program's
payloads: objects, arrays, strings, integers, booleans and null.
(The program only ever exchanges these shapes; floats never occur.) -/
inductive Json where
  | null : Json
  | bool : Bool → Json
  | num : Int → Json
  | str : String → Json
  | arr : List Json → Json
  | obj : List (String × Json) → Json
  deriving Repr, Inhabited

/-- Left brace character (written via its code point). -/
def braceL : Char := Char.ofNat 123

/-- Right brace character (written via its code point). -/
def braceR : Char := Char.ofNat 125

/-- JSON whitespace, as accepted by Python's `json.loads`. -/
def isWs (c : Char) : Bool :=
  c = ' ' || c = '\t' || c = '\n' || c = '\r'

/-- Skip leading JSON whitespace. -/
def skipWs : List Char → List Char
  | [] => []
  | c :: rest => if isWs c then skipWs rest else c :: rest

/-- Decode a JSON string escape character. -/
def escChar (c : Char) : Option Char :=
  if c = '"' then some '"'
  else if c = '\\' then some '\\'
  else if c = '/' then some '/'
  else if c = 'n' then some '\n'
  else if c = 't' then some '\t'
  else if c = 'r' then some '\r'
  else none

/-- Parse the body of a JSON string after the opening quote, accumulating
characters in reverse; returns the string and the remaining input. -/
def parseStrBody (acc : List Char) : List Char → Option (String × List Char)
  | [] => none
  | c :: rest =>
    if c = '"' then some (⟨acc.reverse⟩, rest)
    else if c = '\\' then
      match rest with
      | [] => none
      | e :: rest2 =>
        match escChar e with
        | some d => parseStrBody (d :: acc) rest2
        | none => none
    else parseStrBody (c :: acc) rest

/-- Parse a run of decimal digits, accumulating the value. -/
def parseDigits (acc : Nat) : List Char → Nat × List Char
  | [] => (acc, [])
  | c :: rest =>
    if c.isDigit then parseDigits (acc * 10 + (c.toNat - 48)) rest
    else (acc, c :: rest)

mutual

/-- Parse one JSON value; `fuel` bounds the nesting/recursion depth. -/
def parseVal : Nat → List Char → Option (Json × List Char)
  | 0, _ => none
  | fuel + 1, cs =>
    match cs with
    | [] => none
    | c :: rest =>
      if c = '"' then
        match parseStrBody [] rest with
        | some (s, r) => some (Json.str s, r)
        | none => none
      else if c = braceL then
        match skipWs rest with
        | [] => none
        | d :: r2 =>
          if d = braceR then some (Json.obj [], r2)
          else parseObjItems fuel [] (d :: r2)
      else if c = '[' then
        match skipWs rest with
        | [] => none
        | d :: r2 =>
          if d = ']' then some (Json.arr [], r2)
          else parseArrItems fuel [] (d :: r2)
      else if c = 't' then
        match rest with
        | 'r' :: 'u' :: 'e' :: r2 => some (Json.bool true, r2)
        | _ => none
      else if c = 'f' then
        match rest with
        | 'a' :: 'l' :: 's' :: 'e' :: r2 => some (Json.bool false, r2)
        | _ => none
      else if c = 'n' then
        match rest with
        | 'u' :: 'l' :: 'l' :: r2 => some (Json.null, r2)
        | _ => none
      else if c = '-' then
        match rest with
        | d :: r2 =>
          if d.isDigit then
            let (n, r3) := parseDigits (d.toNat - 48) r2
            some (Json.num (-(n : Int)), r3)
          else none
        | [] => none
      else if c.isDigit then
        let (n, r3) := parseDigits (c.toNat - 48) rest
        some (Json.num (n : Int), r3)
      else none

/-- Parse the comma-separated items of a JSON array (input starts at the
first character of the next item). -/
def parseArrItems : Nat → List Json → List Char → Option (Json × List Char)
  | 0, _, _ => none
  | fuel + 1, acc, cs =>
    match parseVal fuel (skipWs cs) with
    | none => none
    | some (v, r) =>
      match skipWs r with
      | ',' :: r2 => parseArrItems fuel (v :: acc) r2
      | ']' :: r2 => some (Json.arr (v :: acc).reverse, r2)
      | _ => none

/-- Parse the comma-separated `"key": value` members of a JSON object
(input starts at the opening quote of the next key). -/
def parseObjItems : Nat → List (String × Json) → List Char → Option (Json × List Char)
  | 0, _, _ => none
  | fuel + 1, acc, cs =>
    match skipWs cs with
    | '"' :: r =>
      match parseStrBody [] r with
      | none => none
      | some (k, r2) =>
        match skipWs r2 with
        | ':' :: r3 =>
          match parseVal fuel (skipWs r3) with
          | none => none
          | some (v, r4) =>
            match skipWs r4 with
            | ',' :: r5 => parseObjItems fuel ((k, v) :: acc) r5
            | c :: r5 =>
              if c = braceR then some (Json.obj ((k, v) :: acc).reverse, r5)
              else none
            | [] => none
        | _ => none
    | _ => none

end

/-- Model of Python's `json.loads`: parse a complete JSON document,
allowing surrounding whitespace; `none` models `json.JSONDecodeError`. -/
def json_loads (s : String) : Option Json :=
  match parseVal (2 * s.data.length + 2) (skipWs s.data) with
  | some (v, rest) => if skipWs rest = [] then some v else none
  | none => none

/-!  Python-semantics helpers used by the embedding. -/

/-- Dictionary lookup on the association list of a JSON object.  Python's
`json.loads` lets a later duplicate key overwrite an earlier one, so the
last binding wins. -/
def pyLookup (fields : List (String × Json)) (k : String) : Option Json :=
  match fields with
  | [] => none
  | (k', v) :: rest =>
    match pyLookup rest k with
    | some w => some w
    | none => if k' = k then some v else none

/-- Python truthiness of a JSON-derived value (`if not x`, `if x`). -/
def pyFalsy : Json → Bool
  | Json.null => true
  | Json.bool b => !b
  | Json.num n => n = 0
  | Json.str s => s = ""
  | Json.arr l => l.isEmpty
  | Json.obj l => l.isEmpty

/-- Errors raised by the layer.  Each constructor corresponds to one raise
site of the Python source; the spec's error taxonomy names them
`CommandFailed`, `ExecutableNotFound`, `ResponseParseError`,
`ProfileNotFound` and `InvalidRole`.  `attributeError`, `typeError` and
`keyError` model the corresponding uncaught Python exceptions. -/
inductive PyErr where
  | commandFailed : Json → PyErr
  | executableNotFound : PyErr
  | responseParseError : PyErr
  | profileNotFound : String → PyErr
  | invalidRole : String → PyErr
  | attributeError : PyErr
  | typeError : PyErr
  | keyError : String → PyErr
  deriving Repr

/-- `d.get(k)` on a JSON-derived Python value: `AttributeError` when the
value is not a dict; `None` (= JSON null, exactly what `json.loads` maps
`null` to) when the key is missing. -/
def pyGet (j : Json) (k : String) : Except PyErr Json :=
  match j with
  | Json.obj fields => Except.ok ((pyLookup fields k).getD Json.null)
  | _ => Except.error PyErr.attributeError

/-- `d.get(k, default)` on a JSON-derived Python value. -/
def pyGetD (j : Json) (k : String) (d : Json) : Except PyErr Json :=
  match j with
  | Json.obj fields => Except.ok ((pyLookup fields k).getD d)
  | _ => Except.error PyErr.attributeError

/-- `d[k]` subscription with a string key: `KeyError` when missing,
`TypeError` when the value is not a dict. -/
def pySubscript (j : Json) (k : String) : Except PyErr Json :=
  match j with
  | Json.obj fields =>
    match pyLookup fields k with
    | some v => Except.ok v
    | none => Except.error (PyErr.keyError k)
  | _ => Except.error PyErr.typeError

/-- Coerce a JSON field into an `Optional[str]`-typed slot of the Python
data model: JSON null is Python `None`; a non-string value is modelled as
a typing error at this boundary (the dataclass declares `Optional[str]`). -/
def jsonAsOptStr : Json → Except PyErr (Option String)
  | Json.null => Except.ok none
  | Json.str s => Except.ok (some s)
  | _ => Except.error PyErr.typeError

/-- Coerce a JSON field into a `str`-typed slot (the declared return type
of `_get_profile_id`). -/
def jsonAsStr : Json → Except PyErr String
  | Json.str s => Except.ok s
  | _ => Except.error PyErr.typeError

/-- Coerce a JSON field into the `bool`-typed `is_active` slot. -/
def jsonAsBool : Json → Except PyErr Bool
  | Json.bool b => Except.ok b
  | Json.null => Except.ok false
  | _ => Except.error PyErr.typeError

/-- Python f-string interpolation of an `Optional[str]` value:
`None` renders as the four characters `None`. -/
def pyOptStr : Option String → String
  | none => "None"
  | some s => s

/-- Python truthiness of an `Optional[str]` value. -/
def pyOptTruthy : Option String → Bool
  | none => false
  | some s => s ≠ ""

/-- Python slicing `s[:n]`: the first `n` characters (code points). -/
def strTake (s : String) (n : Nat) : String :=
  String.mk (s.data.take n)

/-- An f-string of the shape `f"Key={value}"`: the key, an equals sign and
the interpolated value. -/
def fstr (key val : String) : String :=
  key ++ ("=" ++ val)

/-!  The child process model and the command executor
(src/utils/sf_command_executor.py, `_run_sf_command`). -/

/-- The outcome of one `subprocess.run(..., shell=True, check=True,
stdout=PIPE, stderr=PIPE, text=True)` call: either the process completed
with an exit code and captured output streams, or spawning raised
`FileNotFoundError`. -/
inductive ProcResult where
  | completed : Int → String → String → ProcResult
  | spawnFailure : ProcResult
  deriving Repr

/-- The external world: what the subprocess does for each full shell
command string. -/
def SfEnv : Type := String → ProcResult

/-- The full shell string `_run_sf_command` launches: `f"sf {command} --json"`. -/
def sf_full_command (command : String) : String :=
  "sf " ++ command ++ " --json"

/-- The response handling of `_run_sf_command`:
- exit code zero: `json.loads(result.stdout)`, with `json.JSONDecodeError`
  caught and re-raised as the parse-error `ClickException`;
- `CalledProcessError` (non-zero exit): if stderr is non-empty, try
  `json.loads(e.stderr)`; a parsed dict yields
  `ClickException(error_json.get("message", "Salesforce CLI command failed."))`;
  a parsed non-dict makes `.get` raise an uncaught `AttributeError`;
  an unparseable stderr yields
  `ClickException(f"Salesforce CLI command failed with error: {e.stderr}")`;
  an empty stderr yields `ClickException("Salesforce CLI command failed.")`;
- `FileNotFoundError`: the executable-not-found `ClickException`. -/
def sf_decode : ProcResult → Except PyErr Json
  | ProcResult.spawnFailure => Except.error PyErr.executableNotFound
  | ProcResult.completed code out err =>
    if code = 0 then
      match json_loads out with
      | some v => Except.ok v
      | none => Except.error PyErr.responseParseError
    else
      if err ≠ "" then
        match json_loads err with
        | some (Json.obj fields) =>
          Except.error (PyErr.commandFailed
            ((pyLookup fields "message").getD (Json.str "Salesforce CLI command failed.")))
        | some _ => Except.error PyErr.attributeError
        | none =>
          Except.error (PyErr.commandFailed
            (Json.str ("Salesforce CLI command failed with error: " ++ err)))
      else Except.error (PyErr.commandFailed (Json.str "Salesforce CLI command failed."))

/-- `_run_sf_command(command)`: spawn `sf <command> --json` in the modelled
world and decode the outcome. -/
def run_sf_command (env : SfEnv) (command : String) : Except PyErr Json :=
  sf_decode (env (sf_full_command command))

/-!  The data model (src/models/user_model.py). -/

/-- `UserRole`: user roles mapping to Salesforce profiles. -/
inductive UserRole where
  | standard : UserRole
  | admin : UserRole
  | read_only : UserRole
  deriving DecidableEq, Repr

/-- The enum member's value: the bound Salesforce profile display name. -/
def UserRole.value : UserRole → String
  | UserRole.standard => "Standard User"
  | UserRole.admin => "System Administrator"
  | UserRole.read_only => "Read Only"

/-- The `User` dataclass (`UserBase` plus `id` and `created_date`), with the
declared field types.  `created_date` is a datetime the modelled layer never
populates; its payload is abstracted to a string. -/
structure User where
  username : Option String
  email : Option String
  first_name : Option String
  last_name : Option String
  role : UserRole
  is_active : Bool
  id : Option String
  created_date : Option String
  deriving DecidableEq, Repr

/-!  String helpers modelling Python operators. -/

/-- Whether the first list is an initial segment of the second. -/
def leadMatch : List Char → List Char → Bool
  | [], _ => true
  | _ :: _, [] => false
  | a :: as, b :: bs => a = b && leadMatch as bs

/-- Python's `needle in hay` on strings: substring containment. -/
def strContains (hay needle : String) : Bool :=
  (List.range (hay.data.length + 1)).any fun i => leadMatch needle.data (hay.data.drop i)

/-- Whether `s` starts with `pre`. -/
def strStarts (s pre : String) : Bool :=
  leadMatch pre.data s.data

/-- A single-quote character as a one-character string. -/
def sq : String := String.mk [Char.ofNat 39]

/-!  The user manager (src/managers/user_manager.py). -/

/-- The `UserManager` object: its only state is the org alias passed to the
constructor (default `"default"`). -/
structure UserManager where
  target_org : String
  deriving Repr

/-- `UserManager._parse_role`: converts a Salesforce profile name to a
`UserRole`.  Falsy (absent or empty) names and names matching no known
substring map to `standard`. -/
def parse_role (profile_name : Option String) : UserRole :=
  match profile_name with
  | none => UserRole.standard
  | some s =>
    if s = "" then UserRole.standard
    else if strContains s "Administrator" then UserRole.admin
    else if strContains s "Read Only" then UserRole.read_only
    else UserRole.standard

/-- The `values` list built by `UserManager.create_user` before filtering,
with the resolved profile id passed in for the inlined
`self._get_profile_id(user.role)` call.  Conditional entries collapse to
the empty string exactly as the Python conditional expressions do. -/
def create_values (user : User) (profileId : String) : List String :=
  [ fstr "Username" (pyOptStr user.email),
    fstr "Email" (pyOptStr user.email),
    if pyOptTruthy user.first_name then fstr "FirstName" (pyOptStr user.first_name) else "",
    fstr "LastName" (pyOptStr user.last_name),
    if pyOptTruthy user.username then fstr "Alias" (strTake (pyOptStr user.username) 5) else "",
    fstr "ProfileId" profileId,
    fstr "TimeZoneSidKey" "America/New_York",
    fstr "LocaleSidKey" "en_US",
    fstr "EmailEncodingKey" "UTF-8",
    fstr "LanguageLocaleKey" "en_US" ]

/-- The field entries after the generator filter
`value for value in values if value` (truthiness = non-empty string). -/
def create_fields (user : User) (profileId : String) : List String :=
  (create_values user profileId).filter (fun v => v ≠ "")

/-- The `data create record` command string built by `create_user`. -/
def create_cmd (user : User) (profileId : String) : String :=
  "data create record --sobject User --values \"" ++
    " ".intercalate (create_fields user profileId) ++ "\""

/-- The profile lookup query of `_get_profile_id`
(`SELECT Id FROM Profile WHERE Name = '<role.value>'`). -/
def profile_query (role : UserRole) : String :=
  "SELECT Id FROM Profile WHERE Name = " ++ sq ++ role.value ++ sq

/-- The `data query` command string issued by `_get_profile_id`. -/
def profile_cmd (role : UserRole) : String :=
  "data query --query \"" ++ profile_query role ++ "\""

/-- `UserManager._get_profile_id`: runs the profile lookup, fails with the
profile-not-found `ClickException` when
`result.get("result", {}).get("records")` is falsy, else returns
`records[0]["Id"]` (a `str` per the declared return type; a truthy
non-array `records` value is modelled as a typing error at this
declared-shape boundary). -/
def get_profile_id (env : SfEnv) (role : UserRole) : Except PyErr String := do
  let result ← run_sf_command env (profile_cmd role)
  let res ← pyGetD result "result" (Json.obj [])
  let records ← pyGet res "records"
  if pyFalsy records then
    Except.error (PyErr.profileNotFound role.value)
  else
    match records with
    | Json.arr (first :: _) => do
      let idJ ← pySubscript first "Id"
      jsonAsStr idJ
    | _ => Except.error PyErr.typeError

/-- `UserManager.create_user`: resolve the profile id, issue the create
command, and return the input user with `id` set to
`result["result"]["id"]` and every other field untouched. -/
def create_user (env : SfEnv) (user : User) : Except PyErr User := do
  let profileId ← get_profile_id env user.role
  let result ← run_sf_command env (create_cmd user profileId)
  let res ← pySubscript result "result"
  let idJ ← pySubscript res "id"
  let idStr ← jsonAsOptStr idJ
  Except.ok ⟨user.username, user.email, user.first_name, user.last_name,
             user.role, user.is_active, idStr, user.created_date⟩

/-- The user-listing query built by `list_users` (the `WHERE` clause is
present exactly when `active_only`; the `f"... {where_clause} ..."`
interpolation keeps both surrounding spaces). -/
def list_query (active_only : Bool) : String :=
  "SELECT Id, Username, Email, FirstName, LastName, Profile.Name, IsActive FROM User " ++
    (if active_only then "WHERE IsActive = true" else "") ++ " ORDER BY LastName"

/-- The `data query` command string issued by `list_users`. -/
def list_cmd (active_only : Bool) : String :=
  "data query --query \"" ++ list_query active_only ++ "\""

/-- The per-record mapping in `list_users`'s loop body: the profile name is
`record.get("Profile", {}).get("Name")` when `record.get("Profile")` is
truthy and `None` otherwise, and the `User` is built from the record's
fields with `IsActive` defaulting to `False`.  JSON values are coerced
into the dataclass's declared field types at this boundary. -/
def record_to_user (record : Json) : Except PyErr User := do
  let profJ ← pyGet record "Profile"
  let profile_name ←
    if pyFalsy profJ then Except.ok (none : Option String)
    else do
      let profJ2 ← pyGetD record "Profile" (Json.obj [])
      let nameJ ← pyGet profJ2 "Name"
      jsonAsOptStr nameJ
  let idJ ← pyGet record "Id"
  let idF ← jsonAsOptStr idJ
  let unJ ← pyGet record "Username"
  let un ← jsonAsOptStr unJ
  let emJ ← pyGet record "Email"
  let em ← jsonAsOptStr emJ
  let fnJ ← pyGet record "FirstName"
  let fn ← jsonAsOptStr fnJ
  let lnJ ← pyGet record "LastName"
  let ln ← jsonAsOptStr lnJ
  let iaJ ← pyGetD record "IsActive" (Json.bool false)
  let ia ← jsonAsBool iaJ
  Except.ok ⟨un, em, fn, ln, parse_role profile_name, ia, idF, none⟩

/-- `UserManager.list_users`: issue the query, take
`result.get("result", {}).get("records", [])`, and map each record to a
`User` (iterating a non-array `records` value is modelled as a typing
error). -/
def list_users (env : SfEnv) (active_only : Bool) : Except PyErr (List User) := do
  let result ← run_sf_command env (list_cmd active_only)
  let res ← pyGetD result "result" (Json.obj [])
  let recordsJ ← pyGetD res "records" (Json.arr [])
  match recordsJ with
  | Json.arr records => records.mapM record_to_user
  | _ => Except.error PyErr.typeError

/-- Spec-side observer: the value part of a `Key=Value` field entry
(everything after the first equals sign). -/
def valueAfterEq (s : String) : String :=
  String.mk ((s.data.dropWhile (fun c => c ≠ '=')).drop 1)

/-- Spec-side observer: the key part of a `Key=Value` field entry
(everything before the first equals sign). -/
def entryKey (s : String) : String :=
  String.mk (s.data.takeWhile (fun c => c ≠ '='))

/-!  Helper lemmas about the string model. -/

theorem sdata_append (s t : String) : (s ++ t).data = s.data ++ t.data := by
  cases s; cases t; rfl

theorem string_eq_iff_data (s t : String) : s = t ↔ s.data = t.data := by
  cases s; cases t
  exact ⟨fun h => by cases h; rfl, fun h => by cases h; rfl⟩

theorem append_ne_empty_left (s t : String) (h : s.data ≠ []) : s ++ t ≠ "" := by
  intro he
  rw [string_eq_iff_data, sdata_append] at he
  rcases List.append_eq_nil.mp he with ⟨h1, _⟩
  exact h h1

theorem takeWhile_append_key (p : Char → Bool) (l x : List Char)
    (h : ∀ c ∈ l, p c = true) (he : p '=' = false) :
    List.takeWhile p (l ++ '=' :: x) = l := by
  induction l with
  | nil => simp [List.takeWhile_cons, he]
  | cons c cs ih =>
    simp only [List.cons_append, List.takeWhile_cons, h c (by simp), if_true]
    exact congrArg (c :: ·) (ih (fun d hd => h d (by simp [hd])))

theorem dropWhile_append_key (p : Char → Bool) (l x : List Char)
    (h : ∀ c ∈ l, p c = true) (he : p '=' = false) :
    List.dropWhile p (l ++ '=' :: x) = '=' :: x := by
  induction l with
  | nil => simp [List.dropWhile_cons, he]
  | cons c cs ih =>
    simp only [List.cons_append, List.dropWhile_cons, h c (by simp), if_true]
    exact ih (fun d hd => h d (by simp [hd]))

theorem entryKey_keyed (k x : String) (hk : ∀ c ∈ k.data, c ≠ '=') :
    entryKey (k ++ ("=" ++ x)) = k := by
  obtain ⟨kd⟩ := k
  obtain ⟨xd⟩ := x
  show String.mk (List.takeWhile _ (kd ++ ('=' :: xd))) = String.mk kd
  exact congrArg String.mk
    (takeWhile_append_key _ kd xd (fun d hd => decide_eq_true (hk d hd)) (by decide))

theorem valueAfterEq_keyed (k x : String) (hk : ∀ c ∈ k.data, c ≠ '=') :
    valueAfterEq (k ++ ("=" ++ x)) = x := by
  obtain ⟨kd⟩ := k
  obtain ⟨xd⟩ := x
  show String.mk ((List.dropWhile _ (kd ++ ('=' :: xd))).drop 1) = String.mk xd
  rw [dropWhile_append_key _ kd xd (fun d hd => decide_eq_true (hk d hd)) (by decide)]
  rfl

theorem fstr_entryKey (k v : String) (hk : ∀ c ∈ k.data, c ≠ '=') :
    entryKey (fstr k v) = k :=
  entryKey_keyed k v hk

theorem fstr_valueAfterEq (k v : String) (hk : ∀ c ∈ k.data, c ≠ '=') :
    valueAfterEq (fstr k v) = v :=
  valueAfterEq_keyed k v hk

theorem fstr_ne_empty (k v : String) (hk : k.data ≠ []) : fstr k v ≠ "" :=
  append_ne_empty_left k ("=" ++ v) hk

@[simp] theorem ek_username (v : String) : entryKey (fstr "Username" v) = "Username" :=
  fstr_entryKey _ v (by decide)

@[simp] theorem ek_email (v : String) : entryKey (fstr "Email" v) = "Email" :=
  fstr_entryKey _ v (by decide)

@[simp] theorem ek_first_name (v : String) : entryKey (fstr "FirstName" v) = "FirstName" :=
  fstr_entryKey _ v (by decide)

@[simp] theorem ek_last_name (v : String) : entryKey (fstr "LastName" v) = "LastName" :=
  fstr_entryKey _ v (by decide)

@[simp] theorem ek_alias (v : String) : entryKey (fstr "Alias" v) = "Alias" :=
  fstr_entryKey _ v (by decide)

@[simp] theorem ek_profile_id (v : String) : entryKey (fstr "ProfileId" v) = "ProfileId" :=
  fstr_entryKey _ v (by decide)

@[simp] theorem ek_tz (v : String) : entryKey (fstr "TimeZoneSidKey" v) = "TimeZoneSidKey" :=
  fstr_entryKey _ v (by decide)

@[simp] theorem ek_locale (v : String) : entryKey (fstr "LocaleSidKey" v) = "LocaleSidKey" :=
  fstr_entryKey _ v (by decide)

@[simp] theorem ek_encoding (v : String) :
    entryKey (fstr "EmailEncodingKey" v) = "EmailEncodingKey" :=
  fstr_entryKey _ v (by decide)

@[simp] theorem ek_language (v : String) :
    entryKey (fstr "LanguageLocaleKey" v) = "LanguageLocaleKey" :=
  fstr_entryKey _ v (by decide)

@[simp] theorem vq_username (v : String) : valueAfterEq (fstr "Username" v) = v :=
  fstr_valueAfterEq _ v (by decide)

@[simp] theorem vq_email (v : String) : valueAfterEq (fstr "Email" v) = v :=
  fstr_valueAfterEq _ v (by decide)

@[simp] theorem vq_first_name (v : String) : valueAfterEq (fstr "FirstName" v) = v :=
  fstr_valueAfterEq _ v (by decide)

@[simp] theorem vq_last_name (v : String) : valueAfterEq (fstr "LastName" v) = v :=
  fstr_valueAfterEq _ v (by decide)

@[simp] theorem vq_alias (v : String) : valueAfterEq (fstr "Alias" v) = v :=
  fstr_valueAfterEq _ v (by decide)

@[simp] theorem vq_profile_id (v : String) : valueAfterEq (fstr "ProfileId" v) = v :=
  fstr_valueAfterEq _ v (by decide)

@[simp] theorem vq_tz (v : String) : valueAfterEq (fstr "TimeZoneSidKey" v) = v :=
  fstr_valueAfterEq _ v (by decide)

@[simp] theorem vq_locale (v : String) : valueAfterEq (fstr "LocaleSidKey" v) = v :=
  fstr_valueAfterEq _ v (by decide)

@[simp] theorem vq_encoding (v : String) : valueAfterEq (fstr "EmailEncodingKey" v) = v :=
  fstr_valueAfterEq _ v (by decide)

@[simp] theorem vq_language (v : String) : valueAfterEq (fstr "LanguageLocaleKey" v) = v :=
  fstr_valueAfterEq _ v (by decide)

@[simp] theorem ne_username (v : String) : fstr "Username" v ≠ "" :=
  fstr_ne_empty _ v (by decide)

@[simp] theorem ne_email (v : String) : fstr "Email" v ≠ "" :=
  fstr_ne_empty _ v (by decide)

@[simp] theorem ne_first_name (v : String) : fstr "FirstName" v ≠ "" :=
  fstr_ne_empty _ v (by decide)

@[simp] theorem ne_last_name (v : String) : fstr "LastName" v ≠ "" :=
  fstr_ne_empty _ v (by decide)

@[simp] theorem ne_alias (v : String) : fstr "Alias" v ≠ "" :=
  fstr_ne_empty _ v (by decide)

@[simp] theorem ne_profile_id (v : String) : fstr "ProfileId" v ≠ "" :=
  fstr_ne_empty _ v (by decide)

@[simp] theorem ne_tz (v : String) : fstr "TimeZoneSidKey" v ≠ "" :=
  fstr_ne_empty _ v (by decide)

@[simp] theorem ne_locale (v : String) : fstr "LocaleSidKey" v ≠ "" :=
  fstr_ne_empty _ v (by decide)

@[simp] theorem ne_encoding (v : String) : fstr "EmailEncodingKey" v ≠ "" :=
  fstr_ne_empty _ v (by decide)

@[simp] theorem ne_language (v : String) : fstr "LanguageLocaleKey" v ≠ "" :=
  fstr_ne_empty _ v (by decide)

theorem pyOptStr_ne_empty (o : Option String) (h : o ≠ some "") : pyOptStr o ≠ "" := by
  cases o with
  | none => decide
  | some s =>
    simp [pyOptStr]
    intro he
    exact h (by rw [he])

theorem pyOptTruthy_val_ne (o : Option String) (h : pyOptTruthy o = true) :
    pyOptStr o ≠ "" := by
  cases o with
  | none => exact absurd h (by decide)
  | some s => simpa [pyOptTruthy, pyOptStr] using h

theorem strTake_ne_empty (s : String) (h : s ≠ "") : strTake s 5 ≠ "" := by
  intro he
  apply h
  rw [string_eq_iff_data] at he ⊢
  unfold strTake at he
  have : s.data.take 5 = [] := he
  rcases List.take_eq_nil_iff.mp this with h5 | hnil
  · exact absurd h5 (by decide)
  · exact hnil

/-!  Claim theorems. -/

/-- C5: for each of the three roles `r`, `_parse_role` applied to `r`'s
profile display name returns `r` (round trip), and for every profile-name
value containing neither `"Administrator"` nor `"Read Only"` — including
the empty and absent cases — `_parse_role` returns the standard role. -/
theorem c5_classify_role_round_trip_and_default :
    (∀ r : UserRole, parse_role (some r.value) = r) ∧
    (∀ os : Option String,
      (∀ s, os = some s →
        strContains s "Administrator" = false ∧ strContains s "Read Only" = false) →
      parse_role os = UserRole.standard) := by
  constructor
  · intro r
    cases r <;> decide
  · intro os h
    cases os with
    | none => rfl
    | some s =>
      obtain ⟨h1, h2⟩ := h s rfl
      by_cases hs : s = "" <;> simp [parse_role, hs, h1, h2]

/-- Witness for C5 at concrete inputs: the admin round trip, and the
permissive default on an unknown profile name. -/
theorem c5_witness :
    parse_role (some UserRole.admin.value) = UserRole.admin ∧
    parse_role (some "Marketing User") = UserRole.standard := by
  refine ⟨c5_classify_role_round_trip_and_default.1 UserRole.admin,
          c5_classify_role_round_trip_and_default.2 (some "Marketing User") ?_⟩
  intro s hs
  injection hs with h
  cases h
  exact ⟨by decide, by decide⟩

/-- C9: for every profile-name string containing both `"Administrator"`
and `"Read Only"`, `_parse_role` returns the admin role: the
administrator check takes precedence. -/
theorem c9_administrator_precedence (s : String)
    (hA : strContains s "Administrator" = true)
    (hR : strContains s "Read Only" = true) :
    parse_role (some s) = UserRole.admin := by
  have hs : s ≠ "" := by
    intro h
    rw [h] at hA
    exact absurd hA (by decide)
  simp [parse_role, hs, hA]

/-- Witness for C9 at a concrete profile name containing both substrings. -/
theorem c9_witness : parse_role (some "Read Only Administrator") = UserRole.admin :=
  c9_administrator_precedence "Read Only Administrator" (by decide) (by decide)

/-- The concrete standard output of the spec's executor success example:
`{"result":{"id":"U1"}}`. -/
def exampleCreateStdout : String :=
  "\x7b\"result\":\x7b\"id\":\"U1\"\x7d\x7d"

/-- C1: on a zero exit code, standard output is parsed as JSON and the
call returns the success variant carrying the parsed document — and with
it the top-level `result` field — unchanged; at the concrete stdout
`{"result":{"id":"U1"}}` the payload's `result.id` is `"U1"`; and when
standard output is not valid JSON despite the zero exit code, the call
fails with the response-parse error. -/
theorem c1_executor_success_path (env : SfEnv) (cmd : String)
    (code : Int) (out err : String)
    (henv : env (sf_full_command cmd) = ProcResult.completed code out err)
    (hcode : code = 0) :
    (∀ v, json_loads out = some v → run_sf_command env cmd = Except.ok v) ∧
    (out = exampleCreateStdout →
      ∃ w, run_sf_command env cmd = Except.ok w ∧
        (pyGet w "result" >>= fun r => pySubscript r "id") = Except.ok (Json.str "U1")) ∧
    (json_loads out = none →
      run_sf_command env cmd = Except.error PyErr.responseParseError) := by
  subst hcode
  refine ⟨?_, ?_, ?_⟩
  · intro v hv
    simp [run_sf_command, henv, sf_decode, hv]
  · intro hout
    subst hout
    refine ⟨Json.obj [("result", Json.obj [("id", Json.str "U1")])], ?_, by rfl⟩
    simp [run_sf_command, henv, sf_decode]
    rfl
  · intro hnone
    simp [run_sf_command, henv, sf_decode, hnone]

/-- Witness for C1: a concrete environment whose child prints the example
document on stdout and exits zero. -/
theorem c1_witness :
    run_sf_command (fun _ => ProcResult.completed 0 exampleCreateStdout "") "data create" =
      Except.ok (Json.obj [("result", Json.obj [("id", Json.str "U1")])]) :=
  (c1_executor_success_path (fun _ => ProcResult.completed 0 exampleCreateStdout "")
      "data create" 0 exampleCreateStdout "" rfl rfl).1
    (Json.obj [("result", Json.obj [("id", Json.str "U1")])]) rfl

/-- Counterexample to C2 as stated: on exit code 1 with stderr `{}` —
which parses as JSON and lacks a `message` field — the code fails with
the message `"Salesforce CLI command failed."`, not the claimed
`CommandFailed("Command failed")`. -/
theorem c2_counterexample :
    sf_decode (ProcResult.completed 1 "" "\x7b\x7d") =
      Except.error (PyErr.commandFailed (Json.str "Salesforce CLI command failed.")) ∧
    "Salesforce CLI command failed." ≠ "Command failed" :=
  ⟨rfl, by decide⟩

/-- C2 (amended): on a non-zero exit code —
empty stderr fails with the generic message
`"Salesforce CLI command failed."`; stderr parsing as a JSON object with a
`message` field fails with that message; parsing as a JSON object without
one fails with the generic message; parsing as non-object JSON hits an
uncaught attribute error on `.get`; unparseable stderr fails with
`"Salesforce CLI command failed with error: "` followed by the raw text. -/
theorem c2_failure_paths (env : SfEnv) (cmd : String)
    (code : Int) (out err : String)
    (henv : env (sf_full_command cmd) = ProcResult.completed code out err)
    (hcode : ¬ code = 0) :
    (err = "" → run_sf_command env cmd =
        Except.error (PyErr.commandFailed (Json.str "Salesforce CLI command failed."))) ∧
    (∀ fields m, json_loads err = some (Json.obj fields) →
        pyLookup fields "message" = some m →
        run_sf_command env cmd = Except.error (PyErr.commandFailed m)) ∧
    (∀ fields, json_loads err = some (Json.obj fields) →
        pyLookup fields "message" = none →
        run_sf_command env cmd =
          Except.error (PyErr.commandFailed (Json.str "Salesforce CLI command failed."))) ∧
    (∀ v, json_loads err = some v → (∀ fields, v ≠ Json.obj fields) →
        run_sf_command env cmd = Except.error PyErr.attributeError) ∧
    (err ≠ "" → json_loads err = none →
        run_sf_command env cmd =
          Except.error (PyErr.commandFailed
            (Json.str ("Salesforce CLI command failed with error: " ++ err)))) := by
  have hne : ∀ v, json_loads err = some v → err ≠ "" := by
    intro v hv he
    rw [he] at hv
    rw [show json_loads "" = (none : Option Json) from rfl] at hv
    exact Option.noConfusion hv
  refine ⟨?_, ?_, ?_, ?_, ?_⟩
  · intro he
    simp [run_sf_command, henv, sf_decode, hcode, he]
  · intro fields m hv hm
    simp [run_sf_command, henv, sf_decode, hcode, hne _ hv, hv, hm]
  · intro fields hv hm
    simp [run_sf_command, henv, sf_decode, hcode, hne _ hv, hv, hm]
  · intro v hv hnotobj
    rcases v with _ | b | n | s | l | fields
    all_goals simp [run_sf_command, henv, sf_decode, hcode, hne _ hv, hv]
    exact absurd rfl (hnotobj fields)
  · intro he hnone
    simp [run_sf_command, henv, sf_decode, hcode, he, hnone]

/-- Witness for C2 (amended): exit code 1 with stderr `{"message":"dup"}`
fails carrying `"dup"`. -/
theorem c2_witness :
    run_sf_command (fun _ => ProcResult.completed 1 "" "\x7b\"message\":\"dup\"\x7d") "data create" =
      Except.error (PyErr.commandFailed (Json.str "dup")) :=
  ((c2_failure_paths (fun _ => ProcResult.completed 1 "" "\x7b\"message\":\"dup\"\x7d")
      "data create" 1 "" "\x7b\"message\":\"dup\"\x7d" rfl (by decide)).2.1)
    [("message", Json.str "dup")] (Json.str "dup") rfl rfl

/-- C3: when the profile lookup of `_get_profile_id` succeeds, a falsy
`records` value — zero matching records, or no `records` field at all
(`.get` yields `None`) — fails with the profile-not-found error carrying
the role's display name, and a non-empty record array yields the `Id`
field of its first record. -/
theorem c3_resolve_profile_id (env : SfEnv) (role : UserRole)
    (code : Int) (out err : String) (v res recsJ : Json)
    (henv : env (sf_full_command (profile_cmd role)) = ProcResult.completed code out err)
    (hcode : code = 0)
    (hparse : json_loads out = some v)
    (hres : pyGetD v "result" (Json.obj []) = Except.ok res)
    (hrecs : pyGet res "records" = Except.ok recsJ) :
    (pyFalsy recsJ = true →
      get_profile_id env role = Except.error (PyErr.profileNotFound role.value)) ∧
    (∀ first rest i, recsJ = Json.arr (first :: rest) →
      pySubscript first "Id" = Except.ok (Json.str i) →
      get_profile_id env role = Except.ok i) := by
  subst hcode
  have hrun : run_sf_command env (profile_cmd role) = Except.ok v := by
    simp [run_sf_command, henv, sf_decode, hparse]
  constructor
  · intro hfalsy
    simp [get_profile_id, hrun, hres, hrecs, hfalsy, Bind.bind, Except.bind]
  · intro first rest i harr hid
    subst harr
    have hnf : pyFalsy (Json.arr (first :: rest)) = false := by simp [pyFalsy]
    simp [get_profile_id, hrun, hres, hrecs, hnf, hid, jsonAsStr, Bind.bind, Except.bind]

/-- Witness for C3: one environment returning zero records (profile not
found) and one returning a single record whose `Id` is `"P1"`. -/
theorem c3_witness :
    get_profile_id
        (fun _ => ProcResult.completed 0 "\x7b\"result\":\x7b\"records\":[]\x7d\x7d" "")
        UserRole.admin =
      Except.error (PyErr.profileNotFound "System Administrator") ∧
    get_profile_id
        (fun _ => ProcResult.completed 0
          "\x7b\"result\":\x7b\"records\":[\x7b\"Id\":\"P1\"\x7d]\x7d\x7d" "")
        UserRole.standard =
      Except.ok "P1" := by
  constructor
  · exact (c3_resolve_profile_id
      (fun _ => ProcResult.completed 0 "\x7b\"result\":\x7b\"records\":[]\x7d\x7d" "")
      UserRole.admin 0 "\x7b\"result\":\x7b\"records\":[]\x7d\x7d" ""
      (Json.obj [("result", Json.obj [("records", Json.arr [])])])
      (Json.obj [("records", Json.arr [])]) (Json.arr [])
      rfl rfl rfl rfl rfl).1 rfl
  · exact (c3_resolve_profile_id
      (fun _ => ProcResult.completed 0
        "\x7b\"result\":\x7b\"records\":[\x7b\"Id\":\"P1\"\x7d]\x7d\x7d" "")
      UserRole.standard 0 "\x7b\"result\":\x7b\"records\":[\x7b\"Id\":\"P1\"\x7d]\x7d\x7d" ""
      (Json.obj [("result", Json.obj [("records", Json.arr [Json.obj [("Id", Json.str "P1")]])])])
      (Json.obj [("records", Json.arr [Json.obj [("Id", Json.str "P1")]])])
      (Json.arr [Json.obj [("Id", Json.str "P1")]])
      rfl rfl rfl rfl rfl).2
      (Json.obj [("Id", Json.str "P1")]) [] "P1" rfl rfl

/-- C7: the user-listing query contains the `WHERE IsActive = true` filter
exactly when `active_only` is requested and always contains
`ORDER BY LastName`; and a query outcome whose `records` array is empty
makes `list_users` return the empty list rather than fail. -/
theorem c7_list_users_query_and_empty (env : SfEnv) :
    (∀ a : Bool,
      strContains (list_query a) "WHERE IsActive = true" = a ∧
      strContains (list_query a) "ORDER BY LastName" = true) ∧
    (∀ (a : Bool) (code : Int) (out err : String) (v res : Json),
      env (sf_full_command (list_cmd a)) = ProcResult.completed code out err →
      code = 0 →
      json_loads out = some v →
      pyGetD v "result" (Json.obj []) = Except.ok res →
      pyGetD res "records" (Json.arr []) = Except.ok (Json.arr []) →
      list_users env a = Except.ok []) := by
  constructor
  · intro a
    cases a <;> exact ⟨by decide, by decide⟩
  · intro a code out err v res henv hcode hparse hres hrecs
    subst hcode
    have hrun : run_sf_command env (list_cmd a) = Except.ok v := by
      simp [run_sf_command, henv, sf_decode, hparse]
    simp [list_users, hrun, hres, hrecs, Bind.bind, Except.bind,
      List.mapM.loop, Pure.pure, Except.pure]

/-- C4: the built field list carries exactly one `Alias` entry, whose value
is the first five characters of the username, when the username is present
(truthy), and carries no `Alias` entry at all when the username is absent
(`None`, or the falsy empty string).  Short usernames pass through
`[:5]` unchanged — no padding and no error. -/
theorem c4_alias_truncation (user : User) (profileId : String) :
    (∀ s, user.username = some s → s ≠ "" →
      (create_fields user profileId).filter (fun f => entryKey f = "Alias") =
        [fstr "Alias" (strTake s 5)]) ∧
    (pyOptTruthy user.username = false →
      (create_fields user profileId).filter (fun f => entryKey f = "Alias") = []) := by
  obtain ⟨un, em, fn, ln, rl, ia, idf, cd⟩ := user
  constructor
  · intro s hs hsne
    cases hs
    have hat : pyOptTruthy (some s) = true := by simp [pyOptTruthy, hsne]
    cases hfn : pyOptTruthy fn <;>
      simp [create_fields, create_values, hfn, hat, pyOptStr, List.filter_cons]
  · intro hun
    cases hfn : pyOptTruthy fn <;>
      simp [create_fields, create_values, hun, hfn, List.filter_cons]

/-- Witness for C4: the spec's truncation examples — username `"ab"` gives
alias `"ab"`, username `"abcdefg"` gives alias `"abcde"` — and the
absent-username case gives no alias entry. -/
theorem c4_witness :
    (create_fields ⟨some "ab", some "a@x.com", none, some "Doe",
        UserRole.standard, true, none, none⟩ "P1").filter
      (fun f => entryKey f = "Alias") = [fstr "Alias" "ab"] ∧
    (create_fields ⟨some "abcdefg", some "a@x.com", none, some "Doe",
        UserRole.standard, true, none, none⟩ "P1").filter
      (fun f => entryKey f = "Alias") = [fstr "Alias" "abcde"] ∧
    (create_fields ⟨none, some "a@x.com", none, some "Doe",
        UserRole.standard, true, none, none⟩ "P1").filter
      (fun f => entryKey f = "Alias") = [] := by
  refine ⟨?_, ?_, ?_⟩
  · have h := (c4_alias_truncation ⟨some "ab", some "a@x.com", none, some "Doe",
        UserRole.standard, true, none, none⟩ "P1").1 "ab" rfl (by decide)
    rw [h]
    rfl
  · have h := (c4_alias_truncation ⟨some "abcdefg", some "a@x.com", none, some "Doe",
        UserRole.standard, true, none, none⟩ "P1").1 "abcdefg" rfl (by decide)
    rw [h]
    rfl
  · exact (c4_alias_truncation ⟨none, some "a@x.com", none, some "Doe",
        UserRole.standard, true, none, none⟩ "P1").2 rfl

/-- Counterexample to C6 as stated: for a user whose email is the empty
string (constructible, and not filtered: the entry `"Username="` is a
non-empty string), the returned field list contains an empty-valued
field. -/
theorem c6_counterexample :
    fstr "Username" "" ∈
      create_fields ⟨none, some "", none, some "Doe",
        UserRole.standard, true, none, none⟩ "P1" ∧
    valueAfterEq (fstr "Username" "") = "" :=
  ⟨by decide, rfl⟩

/-- C6 (amended): for every user whose email and last name are not the
empty string and every non-empty resolved profile id, the returned field
list contains no empty entry and no empty-valued field, and a `FirstName`
entry is present exactly when the input first name is truthy (present and
non-empty). -/
theorem c6_fields_never_empty_valued (user : User) (profileId : String)
    (hem : user.email ≠ some "") (hln : user.last_name ≠ some "")
    (hpid : profileId ≠ "") :
    (∀ f ∈ create_fields user profileId, f ≠ "") ∧
    (∀ f ∈ create_fields user profileId, valueAfterEq f ≠ "") ∧
    ((∃ f ∈ create_fields user profileId, entryKey f = "FirstName") ↔
      pyOptTruthy user.first_name = true) := by
  obtain ⟨un, em, fn, ln, rl, ia, idf, cd⟩ := user
  refine ⟨?_, ?_, ?_, ?_⟩
  · intro f hf
    simpa using (List.mem_filter.mp hf).2
  · intro f hf
    have hmem := (List.mem_filter.mp hf).1
    have hne' : f ≠ "" := by simpa using (List.mem_filter.mp hf).2
    simp only [create_values] at hmem
    fin_cases hmem
    · rw [vq_username]
      exact pyOptStr_ne_empty em hem
    · rw [vq_email]
      exact pyOptStr_ne_empty em hem
    · rcases Bool.eq_false_or_eq_true (pyOptTruthy fn) with hfn | hfn
      · rw [if_pos hfn, vq_first_name]
        exact pyOptTruthy_val_ne fn hfn
      · rw [if_neg (by simp [hfn])] at hne'
        exact absurd rfl hne'
    · rw [vq_last_name]
      exact pyOptStr_ne_empty ln hln
    · rcases Bool.eq_false_or_eq_true (pyOptTruthy un) with hun | hun
      · rw [if_pos hun, vq_alias]
        exact strTake_ne_empty _ (pyOptTruthy_val_ne un hun)
      · rw [if_neg (by simp [hun])] at hne'
        exact absurd rfl hne'
    · rw [vq_profile_id]
      exact hpid
    · decide
    · decide
    · decide
    · decide
  · rintro ⟨f, hf, hkey⟩
    have hmem := (List.mem_filter.mp hf).1
    have hne' : f ≠ "" := by simpa using (List.mem_filter.mp hf).2
    simp only [create_values] at hmem
    fin_cases hmem
    · simp at hkey
    · simp at hkey
    · rcases Bool.eq_false_or_eq_true (pyOptTruthy fn) with hfn | hfn
      · exact hfn
      · rw [if_neg (by simp [hfn])] at hne'
        exact absurd rfl hne'
    · simp at hkey
    · rcases Bool.eq_false_or_eq_true (pyOptTruthy un) with hun | hun
      · rw [if_pos hun] at hkey
        simp at hkey
      · rw [if_neg (by simp [hun])] at hne'
        exact absurd rfl hne'
    · simp at hkey
    · simp at hkey
    · simp at hkey
    · simp at hkey
    · simp at hkey
  · intro hfn
    refine ⟨fstr "FirstName" (pyOptStr fn), List.mem_filter.mpr ⟨?_, by simp⟩, by simp⟩
    simp [create_values, hfn]

/-- Witness for C6 (amended) at a concrete user with every optional field
present. -/
theorem c6_witness :
    valueAfterEq (fstr "LastName" "Doe") ≠ "" ∧
    (∃ f ∈ create_fields ⟨some "a@x.com", some "a@x.com", some "Ann", some "Doe",
        UserRole.standard, true, none, none⟩ "P1", entryKey f = "FirstName") := by
  have h := c6_fields_never_empty_valued
    ⟨some "a@x.com", some "a@x.com", some "Ann", some "Doe",
      UserRole.standard, true, none, none⟩ "P1"
    (by decide) (by decide) (by decide)
  exact ⟨h.2.1 (fstr "LastName" "Doe") (by decide), h.2.2.mpr (by decide)⟩

/-- Witness for C7: a concrete zero-record query outcome yields the empty
user list. -/
theorem c7_witness :
    list_users
        (fun _ => ProcResult.completed 0 "\x7b\"result\":\x7b\"records\":[]\x7d\x7d" "")
        true =
      Except.ok [] :=
  (c7_list_users_query_and_empty
      (fun _ => ProcResult.completed 0 "\x7b\"result\":\x7b\"records\":[]\x7d\x7d" "")).2
    true 0 "\x7b\"result\":\x7b\"records\":[]\x7d\x7d" ""
    (Json.obj [("result", Json.obj [("records", Json.arr [])])])
    (Json.obj [("records", Json.arr [])])
    rfl rfl rfl rfl rfl

/-- The failing input of C8: a facade constructed over a concrete org
alias, and a concrete user for the create path. -/
def c8Manager : UserManager := UserManager.mk "qaOrg77"

/-- The concrete user used to evaluate the create invocation of C8. -/
def c8User : User :=
  ⟨some "a@x.com", some "a@x.com", none, some "Doe", UserRole.admin, true, none, none⟩

/-- C8 (refuted, code bug): the facade stores the org alias passed to its
constructor, yet none of the shell invocations issued by the list, profile
resolution and create operations mentions that alias — nor the external
tool's `--target-org` flag at all.  The commands run against the external
tool's own default org, not the facade's configured one. -/
theorem c8_org_alias_never_issued :
    c8Manager.target_org = "qaOrg77" ∧
    strContains (sf_full_command (list_cmd true)) "qaOrg77" = false ∧
    strContains (sf_full_command (list_cmd false)) "qaOrg77" = false ∧
    (∀ r : UserRole, strContains (sf_full_command (profile_cmd r)) "qaOrg77" = false) ∧
    strContains (sf_full_command (create_cmd c8User "P1")) "qaOrg77" = false ∧
    strContains (sf_full_command (list_cmd true)) "--target-org" = false ∧
    strContains (sf_full_command (profile_cmd UserRole.admin)) "--target-org" = false ∧
    strContains (sf_full_command (create_cmd c8User "P1")) "--target-org" = false := by
  refine ⟨rfl, by decide, by decide, ?_, by decide, by decide, by decide, by decide⟩
  intro r
  cases r <;> decide

/-- C10: on the success path of `create_user`, the returned user keeps
every field of the input except `id` — username, email, first name, last
name, role, active flag and creation timestamp are untouched — and `id`
is set to the `id` field of the create response's `result` payload. -/
theorem c10_create_preserves_fields (env : SfEnv) (user : User)
    (pid : String) (code : Int) (out err : String) (v res : Json) (i : String)
    (hpid : get_profile_id env user.role = Except.ok pid)
    (henv : env (sf_full_command (create_cmd user pid)) = ProcResult.completed code out err)
    (hcode : code = 0)
    (hparse : json_loads out = some v)
    (hres : pySubscript v "result" = Except.ok res)
    (hid : pySubscript res "id" = Except.ok (Json.str i)) :
    create_user env user = Except.ok
      ⟨user.username, user.email, user.first_name, user.last_name,
       user.role, user.is_active, some i, user.created_date⟩ := by
  subst hcode
  have hrun : run_sf_command env (create_cmd user pid) = Except.ok v := by
    simp [run_sf_command, henv, sf_decode, hparse]
  simp [create_user, hpid, hrun, hres, hid, jsonAsOptStr, Bind.bind, Except.bind]

/-- The concrete user of the C10 witness. -/
def c10User : User :=
  ⟨some "a@x.com", some "a@x.com", none, some "Doe", UserRole.admin, true, none, none⟩

/-- The create response body of the C10 witness: `{"result":{"id":"U1"}}`. -/
def c10CreateOut : String :=
  "\x7b\"result\":\x7b\"id\":\"U1\"\x7d\x7d"

/-- The environment of the C10 witness: the profile lookup answers with a
single record of id `"P1"` and the create command answers with the create
response. -/
def c10Env : SfEnv := fun c =>
  if c = sf_full_command (profile_cmd UserRole.admin) then
    ProcResult.completed 0 "\x7b\"result\":\x7b\"records\":[\x7b\"Id\":\"P1\"\x7d]\x7d\x7d" ""
  else if c = sf_full_command (create_cmd c10User "P1") then
    ProcResult.completed 0 c10CreateOut ""
  else ProcResult.spawnFailure

/-- Witness for C10 at the concrete environment. -/
theorem c10_witness :
    create_user c10Env c10User = Except.ok
      ⟨some "a@x.com", some "a@x.com", none, some "Doe",
       UserRole.admin, true, some "U1", none⟩ :=
  c10_create_preserves_fields c10Env c10User "P1" 0 c10CreateOut ""
    (Json.obj [("result", Json.obj [("id", Json.str "U1")])])
    (Json.obj [("id", Json.str "U1")]) "U1"
    rfl rfl rfl rfl rfl rfl

end SfCli
